import Mathlib

/-!
Verification of the step-wizard controller and the error-message mapping of
the dapp-stellar-assets repository.

The wizard controller lives in `src/app/page.tsx` (`Home`): state
`currentStep : StepId`, `completedSteps : Set<StepId>`, `publicKey : string`,
operations `goNext`, `goPrev`, `goToStep`, `resetFlow`, derived queries
`getStepStatus` and `canProceed`.  The progress display lives in
`src/components/Stepper.tsx`.  The error-message mappings live in the catch
blocks of `createTrustline` (`src/components/CreateTrustline.tsx`) and
`sendPathPayment` (`src/components/PathPayment.tsx`).
-/

namespace StellarDapp

/-- The step identifiers: `type StepId = 'connect' | 'trustline' | 'balance' | 'payment'`. -/
inductive StepId where
  | connect
  | trustline
  | balance
  | payment
deriving DecidableEq, Fintype

/-- The wizard state held by `Home` in `page.tsx`:
`currentStep` (`useState<StepId>('connect')`),
`completedSteps` (`useState<Set<StepId>>(new Set())`),
`publicKey` (`useState<string>('')`). -/
structure WizardState where
  currentStep : StepId
  completedSteps : Finset StepId
  publicKey : String
deriving DecidableEq

/-- `const order: StepId[] = ['connect', 'trustline', 'balance', 'payment']`. -/
def order : List StepId := [.connect, .trustline, .balance, .payment]

/-- The initial state of `Home`: `currentStep = 'connect'`,
`completedSteps = new Set()`, `publicKey = ''`. -/
def initState : WizardState :=
  { currentStep := .connect, completedSteps := ∅, publicKey := "" }

/-- `goToStep` from `page.tsx`:
`if (completedSteps.has(step) || step === currentStep) setCurrentStep(step)`. -/
def goToStep (s : WizardState) (stepId : StepId) : WizardState :=
  if stepId ∈ s.completedSteps ∨ stepId = s.currentStep then
    { s with currentStep := stepId }
  else
    s

/-- `goNext` from `page.tsx`: `i = order.indexOf(currentStep)`;
if `i < order.length - 1` add `currentStep` to `completedSteps` and set
`currentStep = order[i + 1]`, else only add `currentStep` to `completedSteps`. -/
def goNext (s : WizardState) : WizardState :=
  let i := order.indexOf s.currentStep
  if i < order.length - 1 then
    { s with
      completedSteps := insert s.currentStep s.completedSteps,
      currentStep := order.getD (i + 1) s.currentStep }
  else
    { s with completedSteps := insert s.currentStep s.completedSteps }

/-- `goPrev` from `page.tsx`: `i = order.indexOf(currentStep)`;
`if (i > 0) setCurrentStep(order[i - 1])`. -/
def goPrev (s : WizardState) : WizardState :=
  let i := order.indexOf s.currentStep
  if i > 0 then { s with currentStep := order.getD (i - 1) s.currentStep } else s

/-- `resetFlow` from `page.tsx`: `setCurrentStep('connect')`,
`setCompletedSteps(new Set())`, `setPublicKey('')`. -/
def resetFlow (_s : WizardState) : WizardState :=
  { currentStep := .connect, completedSteps := ∅, publicKey := "" }

/-- The derived per-step status of `page.tsx`. -/
inductive StepStatus where
  | pending
  | active
  | done
deriving DecidableEq

/-- `getStepStatus` from `page.tsx`:
`if (completedSteps.has(stepId)) return 'done'; if (currentStep === stepId) return 'active'; return 'pending'`. -/
def getStepStatus (s : WizardState) (stepId : StepId) : StepStatus :=
  if stepId ∈ s.completedSteps then .done
  else if s.currentStep = stepId then .active
  else .pending

/-- `canProceed` from `page.tsx`: at `'connect'` it returns `!!publicKey`
(a string is truthy exactly when non-empty); at `'trustline'`, `'balance'`
and `'payment'` it returns `true`. -/
def canProceed (s : WizardState) : Bool :=
  match s.currentStep with
  | .connect => !s.publicKey.isEmpty
  | .trustline => true
  | .balance => true
  | .payment => true

/-- `handleWalletConnect` from `page.tsx`: `setPublicKey(key)`. -/
def handleWalletConnect (s : WizardState) (key : String) : WizardState :=
  { s with publicKey := key }

/-- The list of step statuses that `Home` passes to `Stepper`, one per entry
of the `steps` array (ids in `order`, each with `status: getStepStatus(id)`). -/
def stepStatuses (s : WizardState) : List StepStatus :=
  order.map (getStepStatus s)

/-- `steps.filter(s => s.status === "done").length` as computed in
`Stepper.tsx`. -/
def doneCount (s : WizardState) : Nat :=
  ((stepStatuses s).filter (fun st => st = .done)).length

/-- The progress percentage of `Stepper.tsx`:
`(steps.filter(s => s.status === "done").length / steps.length) * 100`. -/
def progressPercent (s : WizardState) : ℚ :=
  ((doneCount s : ℚ) / (order.length : ℚ)) * 100

/-- States reachable from the initial state of `Home` by the user-triggered
operations: `goNext`, `goPrev`, `goToStep`, `resetFlow` and
`handleWalletConnect`. -/
inductive Reachable : WizardState → Prop where
  | init : Reachable initState
  | next {s : WizardState} : Reachable s → Reachable (goNext s)
  | prev {s : WizardState} : Reachable s → Reachable (goPrev s)
  | jump {s : WizardState} (t : StepId) : Reachable s → Reachable (goToStep s t)
  | reset {s : WizardState} : Reachable s → Reachable (resetFlow s)
  | connectWallet {s : WizardState} (k : String) : Reachable s → Reachable (handleWalletConnect s k)

/-- `goNext` at `connect`. -/
theorem goNext_connect (C : Finset StepId) (pk : String) :
    goNext ⟨.connect, C, pk⟩ = ⟨.trustline, insert .connect C, pk⟩ := rfl

/-- `goNext` at `trustline`. -/
theorem goNext_trustline (C : Finset StepId) (pk : String) :
    goNext ⟨.trustline, C, pk⟩ = ⟨.balance, insert .trustline C, pk⟩ := rfl

/-- `goNext` at `balance`. -/
theorem goNext_balance (C : Finset StepId) (pk : String) :
    goNext ⟨.balance, C, pk⟩ = ⟨.payment, insert .balance C, pk⟩ := rfl

/-- `goNext` at `payment`. -/
theorem goNext_payment (C : Finset StepId) (pk : String) :
    goNext ⟨.payment, C, pk⟩ = ⟨.payment, insert .payment C, pk⟩ := rfl

/-- C1: `goNext` inserts the current step into `completedSteps`; away from the
last id `payment` it moves `currentStep` one position forward in `order`; at
`payment` it leaves `currentStep` unchanged and a second `goNext` there
changes nothing. -/
theorem advance_spec (s : WizardState) :
    (goNext s).completedSteps = insert s.currentStep s.completedSteps ∧
    (goNext s).publicKey = s.publicKey ∧
    (s.currentStep ≠ .payment →
      order.indexOf (goNext s).currentStep = order.indexOf s.currentStep + 1) ∧
    (s.currentStep = .payment →
      (goNext s).currentStep = s.currentStep ∧ goNext (goNext s) = goNext s) := by
  obtain ⟨cur, C, pk⟩ := s
  cases cur <;>
    simp [goNext_connect, goNext_trustline, goNext_balance, goNext_payment,
      Finset.insert_idem] <;> decide

/-- Witness for C1: a concrete run of `advance_spec` at the last step. -/
theorem advance_spec_witness :
    goNext (goNext ⟨.payment, ∅, ""⟩) = goNext ⟨.payment, ∅, ""⟩ :=
  ((advance_spec ⟨.payment, ∅, ""⟩).2.2.2 rfl).2

/-- C2: `goToStep` is a no-op unless the target equals `currentStep` or is a
member of `completedSteps`; when that precondition holds it sets `currentStep`
to the target and changes nothing else. -/
theorem jumpTo_spec (s : WizardState) (t : StepId) :
    (¬ (t = s.currentStep ∨ t ∈ s.completedSteps) → goToStep s t = s) ∧
    ((t = s.currentStep ∨ t ∈ s.completedSteps) →
      (goToStep s t).currentStep = t ∧
      (goToStep s t).completedSteps = s.completedSteps ∧
      (goToStep s t).publicKey = s.publicKey) := by
  by_cases h : t ∈ s.completedSteps ∨ t = s.currentStep
  · constructor
    · intro hn
      exact absurd (Or.symm h) hn
    · intro _
      simp [goToStep, h]
  · constructor
    · intro _
      simp [goToStep, h]
    · intro hp
      exact absurd (Or.symm hp) h

/-- Witness for C2: jumping to the pending step `balance` from the initial
state is a no-op. -/
theorem jumpTo_spec_witness : goToStep initState .balance = initState :=
  (jumpTo_spec initState .balance).1 (by decide)

/-- `goPrev` at `connect`. -/
theorem goPrev_connect (C : Finset StepId) (pk : String) :
    goPrev ⟨.connect, C, pk⟩ = ⟨.connect, C, pk⟩ := rfl

/-- `goPrev` at `trustline`. -/
theorem goPrev_trustline (C : Finset StepId) (pk : String) :
    goPrev ⟨.trustline, C, pk⟩ = ⟨.connect, C, pk⟩ := rfl

/-- `goPrev` at `balance`. -/
theorem goPrev_balance (C : Finset StepId) (pk : String) :
    goPrev ⟨.balance, C, pk⟩ = ⟨.trustline, C, pk⟩ := rfl

/-- `goPrev` at `payment`. -/
theorem goPrev_payment (C : Finset StepId) (pk : String) :
    goPrev ⟨.payment, C, pk⟩ = ⟨.balance, C, pk⟩ := rfl

/-- C4: `goPrev` never modifies `completedSteps` (or `publicKey`); away from
the first id it moves `currentStep` one position back in `order`; at the
first id `connect` it is a complete no-op. -/
theorem retreat_spec (s : WizardState) :
    (goPrev s).completedSteps = s.completedSteps ∧
    (goPrev s).publicKey = s.publicKey ∧
    (s.currentStep = .connect → goPrev s = s) ∧
    (s.currentStep ≠ .connect →
      order.indexOf (goPrev s).currentStep + 1 = order.indexOf s.currentStep) := by
  obtain ⟨cur, C, pk⟩ := s
  cases cur <;>
    simp [goPrev_connect, goPrev_trustline, goPrev_balance, goPrev_payment] <;> decide

/-- Witness for C4: a concrete no-op run of `retreat_spec` at the first step. -/
theorem retreat_spec_witness : goPrev ⟨.connect, {.connect}, "G"⟩ = ⟨.connect, {.connect}, "G"⟩ :=
  (retreat_spec ⟨.connect, {.connect}, "G"⟩).2.2.1 rfl

/-- C5: `resetFlow` sets `currentStep` to `connect`, empties `completedSteps`
and clears `publicKey`, regardless of the prior state. -/
theorem reset_spec (s : WizardState) :
    (resetFlow s).currentStep = .connect ∧
    (resetFlow s).completedSteps = ∅ ∧
    (resetFlow s).publicKey = "" :=
  ⟨rfl, rfl, rfl⟩

/-- The state after `n` `goNext` calls from the initial state. -/
def advanceSeq (n : Nat) : WizardState := goNext^[n] initState

theorem advanceSeq_succ (n : Nat) : advanceSeq (n + 1) = goNext (advanceSeq n) :=
  Function.iterate_succ_apply' goNext n initState

theorem goNext_completed_subset (s : WizardState) :
    s.completedSteps ⊆ (goNext s).completedSteps := by
  obtain ⟨cur, C, pk⟩ := s
  cases cur <;> exact Finset.subset_insert _ _

theorem goNext_index_mono (s : WizardState) :
    order.indexOf s.currentStep ≤ order.indexOf (goNext s).currentStep := by
  obtain ⟨cur, C, pk⟩ := s
  cases cur <;>
    simp [goNext_connect, goNext_trustline, goNext_balance, goNext_payment] <;> decide

theorem goNext_payment_fixed (s : WizardState) (h : s.currentStep = .payment) :
    (goNext s).currentStep = .payment := by
  obtain ⟨cur, C, pk⟩ := s
  cases cur <;> simp_all [goNext_payment]

/-- C3: along any sequence of `goNext` calls from the initial state,
`completedSteps` only grows, the index of `currentStep` in `order` never
decreases, and once `currentStep` reaches the last id `payment` it stays
there. -/
theorem advance_monotone (n : Nat) :
    (advanceSeq n).completedSteps ⊆ (advanceSeq (n + 1)).completedSteps ∧
    order.indexOf (advanceSeq n).currentStep ≤
      order.indexOf (advanceSeq (n + 1)).currentStep ∧
    ∀ m, n ≤ m → (advanceSeq n).currentStep = .payment →
      (advanceSeq m).currentStep = .payment := by
  refine ⟨?_, ?_, ?_⟩
  · rw [advanceSeq_succ]
    exact goNext_completed_subset _
  · rw [advanceSeq_succ]
    exact goNext_index_mono _
  · intro m hm
    induction m, hm using Nat.le_induction with
    | base => exact fun h => h
    | succ k _hk ih =>
      intro h
      rw [advanceSeq_succ]
      exact goNext_payment_fixed _ (ih h)

/-- Witness for C3: a concrete run of `advance_monotone`, persisting from the
fourth `goNext` (which reaches `payment`) to the sixth. -/
theorem advance_monotone_witness : (advanceSeq 6).currentStep = .payment :=
  (advance_monotone 3).2.2 6 (by decide) (by decide)

/-- C7: `canProceed` at `connect` is `true` exactly when `publicKey` is
non-empty, and at every other step (`trustline`, `balance`, `payment`) it is
unconditionally `true`. -/
theorem canAdvance_spec (s : WizardState) :
    (s.currentStep = .connect → (canProceed s = true ↔ s.publicKey ≠ "")) ∧
    (s.currentStep ≠ .connect → canProceed s = true) := by
  obtain ⟨cur, C, pk⟩ := s
  cases cur <;> simp [canProceed, ← String.isEmpty_iff]

/-- Witness for C7: with a non-empty identity, advancing from `connect` is
permitted. -/
theorem canAdvance_spec_witness : canProceed ⟨.connect, ∅, "GDEMO"⟩ = true :=
  ((canAdvance_spec ⟨.connect, ∅, "GDEMO"⟩).1 rfl).mpr (by decide)

theorem doneCount_drop_pk (cur : StepId) (C : Finset StepId) (pk : String) :
    doneCount ⟨cur, C, pk⟩ = doneCount ⟨cur, C, ""⟩ := rfl

theorem doneCount_eq_card_aux :
    ∀ (cur : StepId) (C : Finset StepId), doneCount ⟨cur, C, ""⟩ = C.card := by
  decide

/-- The number of steps whose derived status is `done` equals the cardinality
of `completedSteps`, in every state. -/
theorem doneCount_eq_card (s : WizardState) : doneCount s = s.completedSteps.card := by
  obtain ⟨cur, C, pk⟩ := s
  rw [doneCount_drop_pk]
  exact doneCount_eq_card_aux cur C

/-- C6: in every reachable state the progress percentage displayed by the
Stepper equals exactly `100 * |completedSteps| / 4`, because the number of
steps with status `done` equals the cardinality of `completedSteps`. -/
theorem progress_spec (s : WizardState) (_h : Reachable s) :
    progressPercent s = 100 * (s.completedSteps.card : ℚ) / 4 ∧
    doneCount s = s.completedSteps.card := by
  refine ⟨?_, doneCount_eq_card s⟩
  rw [progressPercent, doneCount_eq_card s]
  have hlen : (order.length : ℚ) = 4 := by norm_num [order]
  rw [hlen]
  ring

/-- Witness for C6: `progress_spec` applied to a concrete reachable state,
one `goNext` after the initial state. -/
theorem progress_spec_witness :
    progressPercent (goNext initState) =
      100 * ((goNext initState).completedSteps.card : ℚ) / 4 :=
  (progress_spec (goNext initState) (Reachable.next Reachable.init)).1

/-- C10: `getStepStatus` gives `done` priority over `active`: a step in
`completedSteps` is reported `done` even when it is the current step; and the
reachable state obtained by four `goNext` calls from the initial state (the
fourth one at the last step `payment`) has no step with status `active`. -/
theorem done_priority :
    (∀ (s : WizardState) (i : StepId), i ∈ s.completedSteps → getStepStatus s i = .done) ∧
    Reachable (goNext (goNext (goNext (goNext initState)))) ∧
    (∀ i : StepId,
      getStepStatus (goNext (goNext (goNext (goNext initState)))) i ≠ .active) := by
  refine ⟨fun s i h => by simp [getStepStatus, h], ?_, ?_⟩
  · exact Reachable.next (Reachable.next (Reachable.next (Reachable.next Reachable.init)))
  · decide

/-- Witness for C10: the first conjunct of `done_priority` applied at a
concrete state whose current step is already completed. -/
theorem done_priority_witness :
    getStepStatus ⟨.payment, {.payment}, ""⟩ .payment = .done :=
  done_priority.1 ⟨.payment, {.payment}, ""⟩ .payment (by decide)

/-- JavaScript `s.includes(pat)`: `pat` occurs as a contiguous substring of `s`. -/
def strIncludes (s pat : String) : Bool := decide (pat.data <:+: s.data)

/-- `typeof err?.message === 'string' && err.message.includes(pat)`:
`m` is `some` when `err.message` is a string, `none` otherwise. -/
def msgIncludes (m : Option String) (pat : String) : Bool :=
  match m with
  | some s => strIncludes s pat
  | none => false

/-- JavaScript `o || d` for a possibly-undefined string `o`: an undefined or
empty string is falsy and yields the default. -/
def jsOrDefault (o : Option String) (d : String) : String :=
  match o with
  | some v => if v = "" then d else v
  | none => d

/-- JavaScript template interpolation of a possibly-undefined string:
an undefined value prints as the literal text `undefined`. -/
def jsTemplate (o : Option String) : String := o.getD "undefined"

/-- The error value caught by `createTrustline` in `CreateTrustline.tsx`:
`message` is `err.message` when that is a string; `responseData` is `some rc`
when `err.response.data` is present, where `rc` models
`err.response.data.extras?.result_codes?.operations?.[0]` (inner `none` when
that chain is absent). -/
structure TrustErr where
  message : Option String
  responseData : Option (Option String)
deriving DecidableEq

/-- The error value caught by `sendPathPayment` in `PathPayment.tsx`:
`message` is `err.message` when that is a string; `resultCodes` is `some c`
when `err.response?.data?.extras?.result_codes` is present, where `c` models
`result_codes.operations?.[0]` (inner `none` when absent). -/
structure PathErr where
  message : Option String
  resultCodes : Option (Option String)
deriving DecidableEq

/-- The `errorMessage` computation of the catch block of `createTrustline`
(`CreateTrustline.tsx`), branch for branch. -/
def trustlineErrorMessage (err : TrustErr) : String :=
  if msgIncludes err.message "User declined" then
    "❌ Rechazaste la transacción en Freighter"
  else if msgIncludes err.message "User rejected" then
    "❌ Rechazaste la transacción en Freighter"
  else
    match err.responseData with
    | some resultCode =>
      if resultCode = some "op_low_reserve" then
        "💰 Balance insuficiente. Necesitas al menos 0.5 XLM más."
      else if resultCode = some "op_line_full" then
        "⚠️ Ya tienes la trustline creada."
      else if resultCode = some "op_malformed" then
        "🔧 Error en la construcción de la transacción. Verifica el asset."
      else
        "🌐 Error de Stellar: " ++ jsOrDefault resultCode "Desconocido"
    | none =>
      if err.message = some "Request failed with status code 400" then
        "🔧 Error al procesar la transacción firmada. Verifica el formato del XDR."
      else
        match err.message with
        | some m => m
        | none => "Error desconocido"

/-- The `errorMessage` computation of the catch block of `sendPathPayment`
(`PathPayment.tsx`), branch for branch. -/
def pathPaymentErrorMessage (err : PathErr) : String :=
  if msgIncludes err.message "User declined" then
    "❌ Rechazaste la transacción"
  else if msgIncludes err.message "User rejected" then
    "❌ Rechazaste la transacción"
  else
    match err.resultCodes with
    | some code =>
      if code = some "op_no_destination" then
        "🔍 La cuenta destino no existe"
      else if code = some "op_no_trust" then
        "⚠️ El destino no tiene trustline para ese asset"
      else if code = some "op_under_dest_min" then
        "💱 No hay suficiente liquidez en el DEX"
      else if code = some "op_over_source_max" then
        "💰 Cantidad insuficiente"
      else if code = some "op_underfunded" then
        "💸 Balance insuficiente"
      else if code = some "op_src_no_trust" then
        "⚠️ No tienes trustline para el asset origen"
      else
        "🌐 Error de Stellar: " ++ jsTemplate code
    | none =>
      match err.message with
      | some m => m
      | none => "Error desconocido"

/-- The operation result codes handled specially by `createTrustline`. -/
def trustlineKnownCodes : List String :=
  ["op_low_reserve", "op_line_full", "op_malformed"]

/-- The operation result codes handled specially by `sendPathPayment`. -/
def pathKnownCodes : List String :=
  ["op_no_destination", "op_no_trust", "op_under_dest_min",
   "op_over_source_max", "op_underfunded", "op_src_no_trust"]

/-- C8: each known ledger result code maps to its fixed message in both error
handlers, an unknown result code falls back to the generic ledger-error
message carrying the raw code, and a message containing `User declined` or
`User rejected` maps to the distinct user-rejected message. -/
theorem errorMapping_spec :
    (∀ m, msgIncludes m "User declined" = false → msgIncludes m "User rejected" = false →
      trustlineErrorMessage ⟨m, some (some "op_low_reserve")⟩ =
        "💰 Balance insuficiente. Necesitas al menos 0.5 XLM más." ∧
      trustlineErrorMessage ⟨m, some (some "op_line_full")⟩ =
        "⚠️ Ya tienes la trustline creada." ∧
      trustlineErrorMessage ⟨m, some (some "op_malformed")⟩ =
        "🔧 Error en la construcción de la transacción. Verifica el asset.") ∧
    (∀ m c, msgIncludes m "User declined" = false → msgIncludes m "User rejected" = false →
      c ∉ trustlineKnownCodes → c ≠ "" →
      trustlineErrorMessage ⟨m, some (some c)⟩ = "🌐 Error de Stellar: " ++ c) ∧
    (∀ m rd, (strIncludes m "User declined" = true ∨ strIncludes m "User rejected" = true) →
      trustlineErrorMessage ⟨some m, rd⟩ = "❌ Rechazaste la transacción en Freighter") ∧
    (∀ m, msgIncludes m "User declined" = false → msgIncludes m "User rejected" = false →
      pathPaymentErrorMessage ⟨m, some (some "op_no_destination")⟩ =
        "🔍 La cuenta destino no existe" ∧
      pathPaymentErrorMessage ⟨m, some (some "op_no_trust")⟩ =
        "⚠️ El destino no tiene trustline para ese asset" ∧
      pathPaymentErrorMessage ⟨m, some (some "op_under_dest_min")⟩ =
        "💱 No hay suficiente liquidez en el DEX" ∧
      pathPaymentErrorMessage ⟨m, some (some "op_over_source_max")⟩ =
        "💰 Cantidad insuficiente" ∧
      pathPaymentErrorMessage ⟨m, some (some "op_underfunded")⟩ =
        "💸 Balance insuficiente" ∧
      pathPaymentErrorMessage ⟨m, some (some "op_src_no_trust")⟩ =
        "⚠️ No tienes trustline para el asset origen") ∧
    (∀ m c, msgIncludes m "User declined" = false → msgIncludes m "User rejected" = false →
      c ∉ pathKnownCodes →
      pathPaymentErrorMessage ⟨m, some (some c)⟩ = "🌐 Error de Stellar: " ++ c) ∧
    (∀ m rc, (strIncludes m "User declined" = true ∨ strIncludes m "User rejected" = true) →
      pathPaymentErrorMessage ⟨some m, rc⟩ = "❌ Rechazaste la transacción") := by
  refine ⟨?_, ?_, ?_, ?_, ?_, ?_⟩
  · intro m h1 h2
    refine ⟨?_, ?_, ?_⟩ <;> simp [trustlineErrorMessage, h1, h2]
  · intro m c h1 h2 hc hne
    simp only [trustlineKnownCodes, List.mem_cons, List.not_mem_nil, or_false,
      not_or] at hc
    obtain ⟨hc1, hc2, hc3⟩ := hc
    simp [trustlineErrorMessage, h1, h2, hc1, hc2, hc3, jsOrDefault, hne]
  · intro m rd h
    rcases h with h | h
    · simp [trustlineErrorMessage, msgIncludes, h]
    · by_cases hd : strIncludes m "User declined" = true <;>
        simp [trustlineErrorMessage, msgIncludes, h, hd]
  · intro m h1 h2
    refine ⟨?_, ?_, ?_, ?_, ?_, ?_⟩ <;> simp [pathPaymentErrorMessage, h1, h2]
  · intro m c h1 h2 hc
    simp only [pathKnownCodes, List.mem_cons, List.not_mem_nil, or_false,
      not_or] at hc
    obtain ⟨hc1, hc2, hc3, hc4, hc5, hc6⟩ := hc
    simp [pathPaymentErrorMessage, h1, h2, hc1, hc2, hc3, hc4, hc5, hc6, jsTemplate]
  · intro m rc h
    rcases h with h | h
    · simp [pathPaymentErrorMessage, msgIncludes, h]
    · by_cases hd : strIncludes m "User declined" = true <;>
        simp [pathPaymentErrorMessage, msgIncludes, h, hd]

/-- Witness for C8: an unknown result code in the trustline handler is
surfaced inside the generic ledger-error message. -/
theorem errorMapping_spec_witness :
    trustlineErrorMessage ⟨none, some (some "op_no_issuer")⟩ =
      "🌐 Error de Stellar: " ++ "op_no_issuer" :=
  errorMapping_spec.2.1 none "op_no_issuer" rfl rfl (by decide) (by decide)

/-- Status tags used by the components: `'' | 'success' | 'warning' | 'error'`
(`sendPathPayment` never uses `warning`). -/
inductive StatusType where
  | empty
  | success
  | warning
  | error
deriving DecidableEq

/-- The outcomes of the external calls made by one invocation of
`createTrustline` (`CreateTrustline.tsx`), in program order:
`getAddress()` (its `error` field and `address`), `checkExistingTrustline`
(its `exists` field), `server.loadAccount` (a thrown error, if any),
`signTransaction` (its `error` field), `server.submitTransaction` (a thrown
error, or `result.hash`), and whether the `supabase.from('trustlines').insert`
returned an error. -/
structure TrustlineEnv where
  addressError : Option String
  address : String
  alreadyExists : Bool
  loadAccountError : Option TrustErr
  signError : Option String
  submitResult : Except TrustErr String
  dbError : Bool

/-- The component state visible after one invocation of `createTrustline`:
the `status` pair set by `setStatus`, the `trustlineExists` flag, whether the
`onSuccess` callback was invoked, and the final `loading` flag. -/
structure TrustlineOutcome where
  statusType : StatusType
  statusMessage : String
  trustlineExists : Bool
  onSuccessCalled : Bool
  loading : Bool
deriving DecidableEq

/-- One invocation of `createTrustline` from `CreateTrustline.tsx`, with the
external calls replaced by their recorded outcomes in `env`; `assetCode` is
`asset.code` and `prevExists` the `trustlineExists` state before the call.
Console logging is not modelled; in particular a database insert error
(`env.dbError`) reaches only `console.error` and no other branch, exactly as
in the source. -/
def createTrustlineRun (assetCode : String) (prevExists : Bool)
    (env : TrustlineEnv) : TrustlineOutcome :=
  let onCatch : TrustErr → TrustlineOutcome := fun e =>
    { statusType := .error
      statusMessage := "❌ " ++ trustlineErrorMessage e
      trustlineExists := prevExists
      onSuccessCalled := false
      loading := false }
  match env.addressError with
  | some msg => onCatch { message := some msg, responseData := none }
  | none =>
    if env.address = "" then
      onCatch { message := some "No se pudo obtener la public key. ¿Está Freighter conectado?",
                responseData := none }
    else if env.alreadyExists then
      { statusType := .warning
        statusMessage := "⚠️ Ya tienes una trustline para " ++ assetCode ++
          ". No necesitas crear otra."
        trustlineExists := true
        onSuccessCalled := false
        loading := false }
    else
      match env.loadAccountError with
      | some e => onCatch e
      | none =>
        match env.signError with
        | some msg => onCatch { message := some msg, responseData := none }
        | none =>
          match env.submitResult with
          | .error e => onCatch e
          | .ok _hash =>
            { statusType := .success
              statusMessage := "✅ Trustline creada exitosamente! Ahora puedes recibir " ++
                assetCode ++ "."
              trustlineExists := true
              onSuccessCalled := true
              loading := false }

/-- The amount validation of `sendPathPayment`:
`!amount || parseFloat(amount) <= 0`.  `amountNum` models
`parseFloat(amount)` with `none` for `NaN` (every comparison with `NaN` is
false in JavaScript). -/
def jsAmountInvalid (amount : String) (amountNum : Option ℚ) : Bool :=
  amount == "" ||
    match amountNum with
    | some q => decide (q ≤ 0)
    | none => false

/-- The outcomes of the external calls made by one invocation of
`sendPathPayment` (`PathPayment.tsx`), in program order, together with the
`amount` input field and its `parseFloat` value. -/
structure PathEnv where
  amount : String
  amountNum : Option ℚ
  addressError : Option String
  address : String
  loadAccountError : Option PathErr
  signError : Option String
  submitResult : Except PathErr String
  dbError : Bool

/-- The component state visible after one invocation of `sendPathPayment`:
the `status` pair set by `setStatus` and the final `loading` flag. -/
structure PathOutcome where
  statusType : StatusType
  statusMessage : String
  loading : Bool
deriving DecidableEq

/-- One invocation of `sendPathPayment` from `PathPayment.tsx`, with the
external calls replaced by their recorded outcomes in `env`.  Console logging
is not modelled; a database insert error (`env.dbError`) reaches only
`console.error` and no other branch, exactly as in the source. -/
def sendPathPaymentRun (env : PathEnv) : PathOutcome :=
  let onCatch : PathErr → PathOutcome := fun e =>
    { statusType := .error
      statusMessage := "❌ " ++ pathPaymentErrorMessage e
      loading := false }
  if jsAmountInvalid env.amount env.amountNum then
    onCatch { message := some "Ingresa una cantidad válida", resultCodes := none }
  else
    match env.addressError with
    | some msg => onCatch { message := some msg, resultCodes := none }
    | none =>
      if env.address = "" then
        onCatch { message := some "No se pudo obtener la public key. ¿Está Freighter conectado?",
                  resultCodes := none }
      else
        match env.loadAccountError with
        | some e => onCatch e
        | none =>
          match env.signError with
          | some msg => onCatch { message := some msg, resultCodes := none }
          | none =>
            match env.submitResult with
            | .error e => onCatch e
            | .ok hash =>
              { statusType := .success
                statusMessage := "✅ Path Payment exitoso! Hash: " ++ hash.take 8 ++ "..."
                loading := false }

/-- C9: in both `createTrustline` and `sendPathPayment`, when the ledger
submission succeeded, a failure of the subsequent database insert changes
nothing — the outcome is identical whether the insert failed or not, the
status is the success one (never the error branch), and the trustline
invocation still sets `trustlineExists` and calls `onSuccess`. -/
theorem dbFailure_harmless :
    (∀ (code : String) (prev : Bool) (env : TrustlineEnv) (hash : String),
      env.addressError = none → env.address ≠ "" → env.alreadyExists = false →
      env.loadAccountError = none → env.signError = none →
      env.submitResult = .ok hash →
      createTrustlineRun code prev { env with dbError := true } =
        createTrustlineRun code prev { env with dbError := false } ∧
      (createTrustlineRun code prev env).statusType = .success ∧
      (createTrustlineRun code prev env).statusMessage =
        "✅ Trustline creada exitosamente! Ahora puedes recibir " ++ code ++ "." ∧
      (createTrustlineRun code prev env).trustlineExists = true ∧
      (createTrustlineRun code prev env).onSuccessCalled = true) ∧
    (∀ (env : PathEnv) (hash : String),
      jsAmountInvalid env.amount env.amountNum = false →
      env.addressError = none → env.address ≠ "" →
      env.loadAccountError = none → env.signError = none →
      env.submitResult = .ok hash →
      sendPathPaymentRun { env with dbError := true } =
        sendPathPaymentRun { env with dbError := false } ∧
      (sendPathPaymentRun env).statusType = .success ∧
      (sendPathPaymentRun env).statusMessage =
        "✅ Path Payment exitoso! Hash: " ++ hash.take 8 ++ "...") := by
  constructor
  · intro code prev env hash h1 h2 h3 h4 h5 h6
    obtain ⟨ae, ad, ex, la, se, sr, db⟩ := env
    simp only at h1 h2 h3 h4 h5 h6
    subst h1 h3 h4 h5 h6
    simp [createTrustlineRun, h2]
  · intro env hash h0 h1 h2 h3 h4 h5
    obtain ⟨am, an, ae, ad, la, se, sr, db⟩ := env
    simp only at h0 h1 h2 h3 h4 h5
    subst h1 h3 h4 h5
    simp [sendPathPaymentRun, h0, h2]

/-- Witness for C9: a concrete trustline run with a failing database insert
still reports success. -/
theorem dbFailure_harmless_witness :
    (createTrustlineRun "USDC" false
      { addressError := none, address := "GDEMO", alreadyExists := false,
        loadAccountError := none, signError := none,
        submitResult := .ok "abc123def456", dbError := true }).statusType =
      .success :=
  (dbFailure_harmless.1 "USDC" false
    { addressError := none, address := "GDEMO", alreadyExists := false,
      loadAccountError := none, signError := none,
      submitResult := .ok "abc123def456", dbError := true }
    "abc123def456" rfl (by decide) rfl rfl rfl rfl).2.1

end StellarDapp
